import Mathlib

/-!
Shallow embedding of the FSQ (file-system queue) engine from
`FileStorageQueue/fsq.h`, together with theorems checking the
natural-language specification against it.

The engine's state (`FSQ<CONFIG>` member fields) is modelled by `FSQState`;
the on-disk working directory is modelled as a flat list of (basename, size)
pairs, which is all the engine observes of it (`ScanDir`, `GetFileSize`,
`RenameFile`, `RemoveFile`).  Timestamps are `Nat` (the test config uses
`uint64_t`).  The strategy objects the engine is templated over
(`T_FINALIZE_POLICY::ShouldFinalize`, `T_FILE_APPEND_POLICY` message cost)
enter as explicit function/number parameters of the operations, exactly at
the call sites of the source.

Headers `status.h` and `strategies.h` are not part of the sources at hand;
the definitions taken from them (`FileInfo` and its ordering, the
`QueueStatus` record, the file-naming templates) are modelled from the spec
and from their uses inside `fsq.h`, and are marked as such.
-/

namespace fsq

/-- The processor verdict enum, from fsq.h line 52 (note the source's
misspelling `FailureNeerRetry`, kept as is). -/
inductive FileProcessingResult where
  | Success
  | SuccessAndMoved
  | Unavailable
  | FailureNeerRetry
deriving DecidableEq

/-- Modelled from the spec (status.h is not among the sources):
a finalized-file record — basename, full path, creation timestamp,
size in bytes.  The constructor argument order matches the construction
site in fsq.h lines 186-190. -/
structure FileInfo where
  name : String
  full_path_name : String
  timestamp : Nat
  size : Nat
deriving DecidableEq

/-- Modelled from the spec (status.h's `operator<` on FileInfo, used by the
`std::sort` in `FSQ::ScanDir`): ordered by timestamp ascending, ties broken
by basename lexicographically. -/
def fileInfoLE (a b : FileInfo) : Bool :=
  a.timestamp < b.timestamp
    || (a.timestamp == b.timestamp && decide (a.name ≤ b.name))

/-- Modelled from the spec (status.h): the finalized part of the queue
status — FIFO of finalized files plus their total size. -/
structure QueueFinalizedFilesStatus where
  queue : List FileInfo
  total_size : Nat
deriving DecidableEq

/-- Modelled from the spec (status.h): the queue status — current
(appended-to) file accounting plus the finalized FIFO.  Field names are the
ones `fsq.h` and its test read (`appended_file_size`,
`appended_file_timestamp`, `finalized.queue`, `finalized.total_size`). -/
structure QueueStatus where
  appended_file_size : Nat
  appended_file_timestamp : Nat
  finalized : QueueFinalizedFilesStatus
deriving DecidableEq

/-- One file of the working directory as the engine observes it:
basename and byte size. -/
structure DiskFile where
  name : String
  size : Nat
deriving DecidableEq

/-- The member state of an `FSQ<CONFIG>` instance (fsq.h lines 309-327)
plus the observable working directory.  `current_file_open` stands for
`current_file_ != nullptr`; `current_file_name` tracks the basename of the
open current file (the source stores the directory-joined path; the
directory is a constant, kept in `working_directory`). -/
structure FSQState where
  status : QueueStatus
  status_ready : Bool
  current_file_open : Bool
  current_file_name : String
  force_processing : Bool
  force_worker_thread_shutdown : Bool
  disk : List DiskFile
  working_directory : String
deriving DecidableEq

/-- `T_FILE_SYSTEM::JoinPath`. -/
def joinPath (dir name : String) : String := dir ++ "/" ++ name

/-- Modelled from the spec (strategies.h naming templates): decimal digits
of the 20-character timestamp field, most significant first. -/
def digitsToNat (l : List Char) : Nat :=
  l.foldl (fun a c => a * 10 + (c.toNat - 48)) 0

/-- Modelled from the spec: zero-padded fixed-width (20) decimal timestamp. -/
def padded20 (t : Nat) : String :=
  let s := toString t
  String.mk (List.replicate (20 - s.length) '0') ++ s

/-- Modelled from the spec: `generate(timestamp)` for a fixed
head/tail template. -/
def templateGenerateFileName (head tail : String) (t : Nat) : String :=
  head ++ padded20 t ++ tail

/-- Modelled from the spec: `parse(filename)`, failing on any name not
matching the exact template (wrong length, wrong fixed head or tail, or a
non-digit in the 20-character timestamp field). -/
def templateParseFileName (head tail : String) (s : String) : Option Nat :=
  let l := s.toList
  let mid := (l.drop head.length).take 20
  if l.length == head.length + 20 + tail.length
      && l.take head.length == head.toList
      && l.drop (head.length + 20) == tail.toList
      && mid.all (fun c => c.isDigit) then
    some (digitsToNat mid)
  else
    none

/-- Modelled from the spec: default current-file naming,
`current-<20-digit>.bin`. -/
def currentGenerateFileName (t : Nat) : String :=
  templateGenerateFileName "current-" ".bin" t

/-- Modelled from the spec: default current-file name parsing. -/
def currentParseFileName (s : String) : Option Nat :=
  templateParseFileName "current-" ".bin" s

/-- Modelled from the spec: default finalized-file naming,
`finalized-<20-digit>.bin`. -/
def finalizedGenerateFileName (t : Nat) : String :=
  templateGenerateFileName "finalized-" ".bin" t

/-- Modelled from the spec: default finalized-file name parsing. -/
def finalizedParseFileName (s : String) : Option Nat :=
  templateParseFileName "finalized-" ".bin" s

/-- Effect of `new T_FILE_SYSTEM::OutputFile(name)` on the directory:
the file exists and is empty. -/
def diskCreateFile (name : String) (d : List DiskFile) : List DiskFile :=
  ⟨name, 0⟩ :: d.filter (fun f => f.name != name)

/-- Effect of appending `k` bytes to the file `name`. -/
def diskAppend (name : String) (k : Nat) (d : List DiskFile) : List DiskFile :=
  d.map (fun f => if f.name == name then ⟨f.name, f.size + k⟩ else f)

/-- Effect of `T_FILE_SYSTEM::RenameFile(a, b)` on the directory. -/
def diskRename (a b : String) (d : List DiskFile) : List DiskFile :=
  d.map (fun f => if f.name == a then ⟨b, f.size⟩ else f)

/-- Insert into a list sorted by `le` (helper for the model of the
`std::sort` call in `FSQ::ScanDir`). -/
def insertSorted (le : α → α → Bool) (a : α) : List α → List α
  | [] => [a]
  | b :: l => if le a b then a :: b :: l else b :: insertSorted le a l

/-- Sort by `le` (insertion sort; models the `std::sort` call in
`FSQ::ScanDir`, whose result on all-distinct keys is the unique `le`-sorted
rearrangement). -/
def sortByLE (le : α → α → Bool) : List α → List α
  | [] => []
  | a :: l => insertSorted le a (sortByLE le l)

/-- `FSQ::ScanDir(f)` (fsq.h lines 209-226): collect the files whose names
parse, building a `FileInfo` with the joined path, the parsed timestamp and
the on-disk size, then sort (by the FileInfo order). -/
def ScanDir (parse : String → Option Nat) (s : FSQState) : List FileInfo :=
  sortByLE fileInfoLE
    (s.disk.filterMap fun f =>
      (parse f.name).map fun t =>
        FileInfo.mk f.name (joinPath s.working_directory f.name) t f.size)

/-- `FSQ::FinalizeCurrentFile` (fsq.h lines 180-198): if a current file is
open, close it, generate the finalized name from
`status_.appended_file_timestamp`, rename on disk, push the `FileInfo`
(size = `status_.appended_file_size`) to the back of `finalized.queue`,
and reset the current-file accounting.  Note the source updates neither
`finalized.total_size` nor applies any purge here. -/
def FinalizeCurrentFile (s : FSQState) : FSQState :=
  if s.current_file_open then
    let fname := finalizedGenerateFileName s.status.appended_file_timestamp
    let info : FileInfo :=
      ⟨fname, joinPath s.working_directory fname,
        s.status.appended_file_timestamp, s.status.appended_file_size⟩
    { s with
      current_file_open := false
      current_file_name := ""
      disk := diskRename s.current_file_name fname s.disk
      status :=
        { appended_file_size := 0
          appended_file_timestamp := 0
          finalized :=
            { queue := s.status.finalized.queue ++ [info]
              total_size := s.status.finalized.total_size } } }
  else s

/-- `FSQ::EnsureCurrentFileIsOpen` (fsq.h lines 229-237): when no current
file is open, create one named after `now` and record `now` as
`appended_file_timestamp`. -/
def EnsureCurrentFileIsOpen (now : Nat) (s : FSQState) : FSQState :=
  if s.current_file_open then s
  else
    let fname := currentGenerateFileName now
    { s with
      current_file_open := true
      current_file_name := fname
      disk := diskCreateFile fname s.disk
      status := { s.status with appended_file_timestamp := now } }

/-- `FSQ::PushMessage` (fsq.h lines 127-143), with the append policy's
`MessageSizeInBytes(message)` passed as `cost` and the finalize policy's
`ShouldFinalize(status, now)` passed as `shouldFinalize`.  After the
shutdown check: ensure a current file is open, append (the on-disk file
grows by `cost` and so does `appended_file_size`), then finalize when the
policy says so. -/
def PushMessage (shouldFinalize : QueueStatus → Nat → Bool)
    (cost now : Nat) (s : FSQState) : FSQState :=
  if s.force_worker_thread_shutdown then s
  else
    let s1 := EnsureCurrentFileIsOpen now s
    let s2 :=
      { s1 with
        disk := diskAppend s1.current_file_name cost s1.disk
        status :=
          { s1.status with
            appended_file_size := s1.status.appended_file_size + cost } }
    if shouldFinalize s2.status now then FinalizeCurrentFile s2 else s2

/-- `FSQ::ForceProcessing` (fsq.h lines 151-160): when
`force_finalize_current_file` is set or the finalized queue is empty,
finalize any open current file; in every case set `force_processing_` and
notify the worker. -/
def ForceProcessing (force_finalize_current_file : Bool) (s : FSQState) :
    FSQState :=
  let s1 :=
    if force_finalize_current_file || s.status.finalized.queue.isEmpty then
      if s.current_file_open then FinalizeCurrentFile s else s
    else s
  { s1 with force_processing := true }

/-- `FSQ::RemoveAllFSQFiles` (fsq.h lines 164-175): remove from disk every
file whose name parses as finalized, then every file whose name parses as
current.  The method is `const`: no member of the engine state changes. -/
def RemoveAllFSQFiles (s : FSQState) : FSQState :=
  let d1 := s.disk.filter (fun f => !(finalizedParseFileName f.name).isSome)
  let d2 := d1.filter (fun f => !(currentParseFileName f.name).isSome)
  { s with disk := d2 }

/-- Steps 1-3 of `FSQ::WorkerThread` (fsq.h lines 243-265): seed
`finalized.queue` from the directory scan and recompute
`finalized.total_size`; the handling of current files found on disk is a
TODO in the source (line 257) and does nothing; finally set
`status_ready_`. -/
def WorkerStartupScan (s : FSQState) : FSQState :=
  let finalized_files := ScanDir finalizedParseFileName s
  let total := finalized_files.foldl (fun a f => a + f.size) 0
  { s with
    status :=
      { s.status with
        finalized := { queue := finalized_files, total_size := total } }
    status_ready := true }

/-- One iteration of step 4 of `FSQ::WorkerThread` (fsq.h lines 268-306)
in which a head file was dispatched and the processor returned `result`:
the source discards the verdict (`static_cast<void>(result)`, retry logic
is a TODO at line 299) and unconditionally pops the head; it removes no
file from disk and does not touch `finalized.total_size`. -/
def WorkerStep (result : FileProcessingResult) (s : FSQState) : FSQState :=
  match result with
  | _ =>
    if s.status.finalized.queue.isEmpty then s
    else
      { s with
        status :=
          { s.status with
            finalized :=
              { queue := s.status.finalized.queue.tail
                total_size := s.status.finalized.total_size } } }

/-- Outcome of a `GetQueueStatus()` call as observable by its caller. -/
inductive GetStatusResult where
  | ok (st : QueueStatus)
  | shuttingDown
  | blocked
deriving DecidableEq

/-- `FSQ::GetQueueStatus` (fsq.h lines 115-124): wait until `status_ready_`
(modelled as `blocked` while it is false), then return a copy of `status_`.
The wait loop checks only `status_ready_`; handling
`force_worker_thread_shutdown_` there is a TODO (line 120), so no call ever
fails with a shutting-down error. -/
def GetQueueStatus (s : FSQState) : GetStatusResult :=
  if s.status_ready then .ok s.status else .blocked

/-! Example states, mirroring the repository's own test
(`FileSystemQueueTest.SimpleSmokeTest`) and the spec's end-to-end
scenarios. -/

/-- A freshly constructed engine over an empty working directory, after the
startup scan (`status_ready` already set, as in the smoke test). -/
def exInit : FSQState :=
  { status := ⟨0, 0, ⟨[], 0⟩⟩
    status_ready := true
    current_file_open := false
    current_file_name := ""
    force_processing := false
    force_worker_thread_shutdown := false
    disk := []
    working_directory := "build" }

/-- A finalize policy that never fires (the smoke test's thresholds are
never reached by its three pushes). -/
def neverFinalize : QueueStatus → Nat → Bool := fun _ _ => false

/-- A finalize policy that always fires (rolls the file on every push). -/
def alwaysFinalize : QueueStatus → Nat → Bool := fun _ _ => true

/-- The smoke-test run: three 4-byte messages ("foo", "bar", "baz" plus a
newline separator each) pushed at times 1001, 1002, 1003. -/
def ex3 : FSQState :=
  PushMessage neverFinalize 4 1003
    (PushMessage neverFinalize 4 1002
      (PushMessage neverFinalize 4 1001 exInit))

/-- The engine right after construction over a directory holding one
finalized file of 12 bytes (timestamp 7), before the startup scan. -/
def exDisk1 : FSQState :=
  { exInit with
    status_ready := false
    disk := [⟨"finalized-00000000000000000007.bin", 12⟩] }

/-- `exDisk1` after the worker's startup scan: the file is queued. -/
def exD : FSQState := WorkerStartupScan exDisk1

/-- The engine right after construction over a directory holding two
finalized files (timestamps 9 and 7), before the startup scan. -/
def exDisk2 : FSQState :=
  { exInit with
    status_ready := false
    disk := [⟨"finalized-00000000000000000009.bin", 3⟩,
             ⟨"finalized-00000000000000000007.bin", 5⟩] }

/-- `exDisk2` after the worker's startup scan: both files queued in
timestamp order. -/
def exE : FSQState := WorkerStartupScan exDisk2

/-- The engine right after construction over a directory holding two files
that parse as current (timestamps 5 and 2), before the startup scan. -/
def exTwoCurrent : FSQState :=
  { exInit with
    status_ready := false
    disk := [⟨"current-00000000000000000005.bin", 7⟩,
             ⟨"current-00000000000000000002.bin", 4⟩] }

/-- Three back-to-back finalizations (scenario F shape): each push rolls
the file immediately. -/
def exThreeFinalized : FSQState :=
  PushMessage alwaysFinalize 4 3
    (PushMessage alwaysFinalize 4 2
      (PushMessage alwaysFinalize 4 1 exInit))

/-- A post-scan state whose shutdown flag has been set (a destructor racing
with a `GetQueueStatus` caller). -/
def exShutReady : FSQState :=
  { exInit with force_worker_thread_shutdown := true }

/-- `exInit` with the shutdown flag set before any push. -/
def exShut : FSQState :=
  { exInit with force_worker_thread_shutdown := true }

/-- What the spec's §4.6 prescribes for one `Push(message)` call that is
not rejected, phrased against the engine state `s` it starts from:
a current file is open afterwards-or-just-before-finalizing, created with
`now` as its timestamp when none was open; the append accounts exactly
`cost` bytes; and the call finalizes exactly when the finalize policy fires
on the updated status.  `mid` is the state the spec describes right after
the append and before the finalize decision. -/
def PushSpecStatement (p : QueueStatus → Nat → Bool) (cost now : Nat)
    (s : FSQState) : Prop :=
  let ts := if s.current_file_open then s.status.appended_file_timestamp
            else now
  let cname := if s.current_file_open then s.current_file_name
               else currentGenerateFileName now
  let predisk := if s.current_file_open then s.disk
                 else diskCreateFile cname s.disk
  let mid : FSQState :=
    { status := ⟨s.status.appended_file_size + cost, ts, s.status.finalized⟩
      status_ready := s.status_ready
      current_file_open := true
      current_file_name := cname
      force_processing := s.force_processing
      force_worker_thread_shutdown := s.force_worker_thread_shutdown
      disk := diskAppend cname cost predisk
      working_directory := s.working_directory }
  (PushMessage p cost now s).current_file_open = !(p mid.status now) ∧
  PushMessage p cost now s =
    (if p mid.status now then FinalizeCurrentFile mid else mid)

/-! Theorems, one per claim of the specification review. -/

/-- Claim C1.  The claim says that on a `Success` verdict the worker
removes the dispatched head file from disk, pops it, decreases
`finalized.total_size` by its size and resets the retry schedule.  The
source applies no part of a verdict except the pop (fsq.h:299-303, retry
logic is a TODO): starting from a startup scan over a directory holding one
12-byte finalized file, a `Success` verdict pops the head but leaves the
file on disk and leaves `finalized.total_size` at 12. -/
theorem worker_success_verdict_not_applied :
    exD.status.finalized.queue.length = 1 ∧
    exD.status.finalized.total_size = 12 ∧
    (WorkerStep .Success exD).status.finalized.queue = [] ∧
    (WorkerStep .Success exD).disk = exD.disk ∧
    (WorkerStep .Success exD).status.finalized.total_size = 12 := by decide

/-- Claim C2.  The claim says `finalized.total_size` equals the sum of the
queued sizes after every public operation.  `FSQ::FinalizeCurrentFile`
(fsq.h:180-198) pushes the new `FileInfo` but never adds its size to
`finalized.total_size`: after the smoke-test run (three 4-byte pushes, then
`ForceProcessing(true)`) the queue holds 12 bytes while `total_size` is
still 0. -/
theorem finalize_breaks_total_size_invariant :
    ((ForceProcessing true ex3).status.finalized.queue.map
        (fun f => f.size)).sum = 12 ∧
    (ForceProcessing true ex3).status.finalized.total_size = 0 := by decide

/-- Claim C3.  The claim says an `Unavailable` verdict leaves the head in
place and suspends dispatch until `ForceProcessing`.  The source ignores
the verdict and pops the head (fsq.h:299-303): with two finalized files
queued (timestamps 7 and 9), `Unavailable` on the head removes it, so the
next iteration would dispatch timestamp 9 with no suspension at all. -/
theorem worker_unavailable_pops_head :
    (exE.status.finalized.queue.map (fun f => f.timestamp)) = [7, 9] ∧
    ((WorkerStep .Unavailable exE).status.finalized.queue.map
        (fun f => f.timestamp)) = [9] := by decide

/-- Claim C4.  The claim says the startup scan finalizes all but the most
recent of several on-disk current files and appends them to the queue.
Step 2 of `FSQ::WorkerThread` is a TODO (fsq.h:257): over a directory with
two current-parseable files, the scan renames nothing (the disk is
untouched, both current files remain) and queues nothing. -/
theorem startup_scan_leaves_extra_current_files :
    ((exTwoCurrent.disk.filter
        (fun f => (currentParseFileName f.name).isSome)).length = 2) ∧
    (WorkerStartupScan exTwoCurrent).disk = exTwoCurrent.disk ∧
    (WorkerStartupScan exTwoCurrent).status.finalized.queue = [] := by decide

/-- Claim C5.  The claim says the purge strategy runs whenever the
finalized set grows, and that with `N_max = 2` only the two newest of three
back-to-back finalizations survive.  No code path in fsq.h ever invokes the
purge policy (`FinalizeCurrentFile` lacks it, `EnsureCurrentFileIsOpen` has
the TODO at line 230): after three finalizations all three files are still
queued, the oldest included. -/
theorem no_purge_after_three_finalizations :
    exThreeFinalized.status.finalized.queue.length = 3 ∧
    (exThreeFinalized.status.finalized.queue.map (fun f => f.timestamp))
      = [1, 2, 3] := by decide

/-- Claim C6.  The claim says `GetStatus` blocks until `status_ready` and
returns a snapshot, and that a caller racing with shutdown fails with a
`ShuttingDown` error.  The source's wait loop checks only `status_ready_`
(the shutdown check is the TODO at fsq.h:120): every call either returns a
normal snapshot or keeps blocking — none ever yields the shutting-down
error, not even with the shutdown flag set. -/
theorem getQueueStatus_never_fails_shuttingDown :
    (∀ s : FSQState, GetQueueStatus s = .ok s.status
        ∨ GetQueueStatus s = .blocked) ∧
    GetQueueStatus exShutReady = .ok exShutReady.status := by
  constructor
  · intro s
    unfold GetQueueStatus
    by_cases h : s.status_ready <;> simp [h]
  · rfl

/-- Claim C7.  For every message and every non-shut-down state, `Push`
ensures a current file is open (created with the clock value as its
timestamp when none was), appends through the append policy increasing
`current.size` by exactly the message cost, and then finalizes exactly when
the finalize policy fires on the updated status — as stated by
`PushSpecStatement`. -/
theorem pushMessage_meets_push_spec (p : QueueStatus → Nat → Bool)
    (cost now : Nat) (s : FSQState)
    (h : s.force_worker_thread_shutdown = false) :
    PushSpecStatement p cost now s := by
  obtain ⟨⟨afs, aft, fin⟩, ready, copen, cname, fp, fsd, dsk, wd⟩ := s
  simp only at h
  subst h
  cases copen
  · by_cases hp : p ⟨afs + cost, now, fin⟩ now <;>
      simp [PushSpecStatement, PushMessage, EnsureCurrentFileIsOpen,
        FinalizeCurrentFile, hp]
  · by_cases hp : p ⟨afs + cost, aft, fin⟩ now <;>
      simp [PushSpecStatement, PushMessage, EnsureCurrentFileIsOpen,
        FinalizeCurrentFile, hp]

/-- Claim C7, witness: the push spec holds concretely for a 4-byte message
pushed at time 1001 into a fresh engine under an always-fire finalize
policy. -/
theorem pushMessage_meets_push_spec_witness :
    exInit.force_worker_thread_shutdown = false ∧
    PushSpecStatement alwaysFinalize 4 1001 exInit :=
  ⟨rfl, pushMessage_meets_push_spec alwaysFinalize 4 1001 exInit rfl⟩

/-- Claim C8.  A `Push` issued after the shutdown flag is set is rejected
with no effect at all: the engine state (disk included) is returned
unchanged (fsq.h:128-130). -/
theorem pushMessage_after_shutdown_noop (p : QueueStatus → Nat → Bool)
    (cost now : Nat) (s : FSQState)
    (h : s.force_worker_thread_shutdown = true) :
    PushMessage p cost now s = s := by
  unfold PushMessage
  simp [h]

/-- Claim C8, witness: pushing into a fresh engine whose shutdown flag is
set changes nothing. -/
theorem pushMessage_after_shutdown_noop_witness :
    exShut.force_worker_thread_shutdown = true ∧
    PushMessage neverFinalize 4 1001 exShut = exShut :=
  ⟨rfl, pushMessage_after_shutdown_noop neverFinalize 4 1001 exShut rfl⟩

/-- Claim C9.  `ForceProcessing(b)` finalizes the open current file exactly
when one is open and either `b` is set or the finalized queue is empty
(afterwards no current file is open in exactly those cases), and in every
case sets the `force_processing` flag for the worker. -/
theorem forceProcessing_spec (b : Bool) (s : FSQState) :
    (ForceProcessing b s).force_processing = true ∧
    (ForceProcessing b s).current_file_open
      = (s.current_file_open && !(b || s.status.finalized.queue.isEmpty)) ∧
    ForceProcessing b s =
      { (if s.current_file_open && (b || s.status.finalized.queue.isEmpty)
          then FinalizeCurrentFile s else s) with force_processing := true } := by
  obtain ⟨⟨afs, aft, fin⟩, ready, copen, cname, fp, fsd, dsk, wd⟩ := s
  cases copen <;> by_cases h1 : (b || fin.queue.isEmpty) <;>
    simp [ForceProcessing, FinalizeCurrentFile, h1]

/-- Claim C10.  `RemoveAllFSQFiles` only touches the disk: every in-memory
field (the whole queue status, `status_ready`, the current-file members and
the flags) keeps its value — in particular `GetQueueStatus` answers exactly
as before — while the disk loses precisely the files whose names parse as
finalized or as current. -/
theorem removeAllFSQFiles_frame (s : FSQState) :
    (RemoveAllFSQFiles s).status = s.status ∧
    (RemoveAllFSQFiles s).status_ready = s.status_ready ∧
    (RemoveAllFSQFiles s).current_file_open = s.current_file_open ∧
    (RemoveAllFSQFiles s).current_file_name = s.current_file_name ∧
    (RemoveAllFSQFiles s).force_processing = s.force_processing ∧
    (RemoveAllFSQFiles s).force_worker_thread_shutdown
      = s.force_worker_thread_shutdown ∧
    GetQueueStatus (RemoveAllFSQFiles s) = GetQueueStatus s ∧
    (RemoveAllFSQFiles s).disk = s.disk.filter
      (fun f => (currentParseFileName f.name).isNone
        && (finalizedParseFileName f.name).isNone) := by
  obtain ⟨⟨afs, aft, fin⟩, ready, copen, cname, fp, fsd, dsk, wd⟩ := s
  simp [RemoveAllFSQFiles, GetQueueStatus, List.filter_filter]

end fsq
